import Mathlib

/-!
Shallow embedding of `orderbook_analyzer.py` (class `AnalyzeBook`).

The embedding covers the pure data pipeline of the source:
  * the per-snapshot normalization loop of `extract_data` (lines 76-103),
  * the aggregation loop and final column assignment of `clean_data` (lines 118-151),
  * the single-instrument URL lookup of `extract_data(manual=True)` (lines 72-74).

Python floats are modelled as exact rationals; the pandas dataframes holding
the levels of a side are modelled as lists of records.  Python exceptions are modelled
with `Except` over an explicit error type naming the Python exception class
that the corresponding operation raises.
-/

/-- A raw price level as delivered by the exchange: `(native price, quantity)`.
These are the two positional columns of `pd.DataFrame(s["bids"])`. -/
structure RawLevel where
  price : ℚ
  qty : ℚ
  deriving DecidableEq

/-- A normalized price level: one row of the bids/asks dataframe after
`extract_data` has added the `usd_price`, `total_usd` and `cumulative_usd`
columns (source lines 88-96). -/
structure NormLevel where
  coin_price : ℚ
  quantity : ℚ
  usd_price : ℚ
  total_usd : ℚ
  cumulative_usd : ℚ
  deriving DecidableEq

/-- One side of a book as it appears in an `extract_data` store entry.
`extract_data` leaves three possible shapes: the Python empty list `[]`
(assigned when the dataframe of that side is empty, lines 82-85), a raw dataframe
that was never normalized (the opposite side in those same branches), or a
fully normalized dataframe (the `else` branch, lines 86-96). -/
inductive Side where
  | empty : Side
  | raw : List RawLevel → Side
  | norm : List NormLevel → Side
  deriving DecidableEq

/-- Python `len` on a store entry side: `len([]) = 0`, `len(df)` = row count. -/
def Side.len : Side → Nat
  | Side.empty => 0
  | Side.raw ls => ls.length
  | Side.norm ls => ls.length

/-- Whether a side carries the normalized columns added on lines 88-96. -/
def Side.isNorm : Side → Bool
  | Side.norm _ => true
  | _ => false

/-- The fields of one parsed snapshot `r[i]["result"]` that `extract_data`
reads.  `underlying_price` is an `Option` because a key access on a missing
field is a `KeyError` in Python. -/
structure RawSnapshot where
  instrument_name : String
  underlying_price : Option ℚ
  bids : List RawLevel
  asks : List RawLevel
  deriving DecidableEq

/-- One store entry `[s["instrument_name"], bids, asks]` (line 98). -/
structure BookEntry where
  name : String
  bids : Side
  asks : Side
  deriving DecidableEq

/-- The Python exceptions the embedded code can raise.  `invalidParameter`
models the `InvalidParameterError` of the spec; the source never raises it, which
several claims turn on. -/
inductive PyError where
  | keyError : PyError
  | indexError : PyError
  | valueError : PyError
  | attributeError : PyError
  | invalidParameter : PyError
  deriving DecidableEq

/-- Normalization of one side from a running cumulative total `acc`:
`usd_price = coin_price * underlying_price`, `total_usd = usd_price * quantity`,
`cumulative_usd = total_usd.cumsum()` (source lines 88-91 and 93-96). -/
def normalizeFrom (u : ℚ) (acc : ℚ) : List RawLevel → List NormLevel
  | [] => []
  | l :: rest =>
    { coin_price := l.price, quantity := l.qty, usd_price := l.price * u,
      total_usd := l.price * u * l.qty,
      cumulative_usd := acc + l.price * u * l.qty }
      :: normalizeFrom u (acc + l.price * u * l.qty) rest

/-- Normalize a whole side; the cumulative sum starts at 0. -/
def normalizeSide (u : ℚ) (ls : List RawLevel) : List NormLevel :=
  normalizeFrom u 0 ls

/-- The body of the `extract_data` loop for one snapshot (lines 78-98): if the
bids dataframe is empty, bids becomes the Python `[]` and asks is stored raw;
`elif` the asks dataframe is empty, asks becomes `[]` and bids is stored raw;
otherwise both sides are normalized, which reads `s["underlying_price"]` and
raises `KeyError` when that field is absent. -/
def extractOne (s : RawSnapshot) : Except PyError BookEntry :=
  if s.bids.length = 0 then
    Except.ok { name := s.instrument_name, bids := Side.empty, asks := Side.raw s.asks }
  else if s.asks.length = 0 then
    Except.ok { name := s.instrument_name, bids := Side.raw s.bids, asks := Side.empty }
  else
    match s.underlying_price with
    | none => Except.error PyError.keyError
    | some u =>
      Except.ok { name := s.instrument_name,
                  bids := Side.norm (normalizeSide u s.bids),
                  asks := Side.norm (normalizeSide u s.asks) }

/-- The whole `extract_data` loop over a batch of parsed snapshots, fail-fast
on the first raising snapshot (lines 76-103, `manual=False` path). -/
def extractStore : List RawSnapshot → Except PyError (List BookEntry)
  | [] => Except.ok []
  | s :: rest => do
    let b ← extractOne s
    let bs ← extractStore rest
    Except.ok (b :: bs)

/-- Pandas `df.head(n)`: the first `n` rows for `n ≥ 0` (capped at the length),
and all rows but the last `|n|` for `n < 0`. -/
def pyHead (n : ℤ) (ls : List NormLevel) : List NormLevel :=
  if 0 ≤ n then ls.take n.toNat else ls.take (ls.length - (-n).toNat)

/-- Computes `df.total_usd.sum()` over a normalized side. -/
def sumTotal (ls : List NormLevel) : ℚ :=
  (ls.map NormLevel.total_usd).sum

/-- One output row `[product_name, bids_thousands, asks_thousands]` of
`clean_data`. -/
structure SummaryRow where
  product_name : String
  bids_thousands : ℚ
  asks_thousands : ℚ
  deriving DecidableEq

/-- Computes `s[i].head(levels).total_usd.sum()` respectively `s[i].total_usd.sum()`
(lines 136-137 and 145-146).  Accessing the `total_usd` column of a side that
is not a normalized dataframe is a Python `AttributeError`. -/
def sideSum (topBook : Bool) (levels : ℤ) : Side → Except PyError ℚ
  | Side.norm ls => Except.ok (sumTotal (if topBook then pyHead levels ls else ls))
  | _ => Except.error PyError.attributeError

/-- The body of the `clean_data` loop for one store entry (lines 121-148): skip
the entry when either side has length 0, otherwise append a row of the two
per-side sums divided by 1000. -/
def rowOf (topBook : Bool) (levels : ℤ) (b : BookEntry) :
    Except PyError (Option SummaryRow) :=
  if b.bids.len = 0 ∨ b.asks.len = 0 then
    Except.ok none
  else do
    let bSum ← sideSum topBook levels b.bids
    let aSum ← sideSum topBook levels b.asks
    Except.ok (some { product_name := b.name,
                      bids_thousands := bSum / 1000,
                      asks_thousands := aSum / 1000 })

/-- The `clean_data` loop over the whole store, in input order. -/
def buildRows (topBook : Bool) (levels : ℤ) :
    List BookEntry → Except PyError (List SummaryRow)
  | [] => Except.ok []
  | b :: rest => do
    let r ← rowOf topBook levels b
    let rs ← buildRows topBook levels rest
    match r with
    | none => Except.ok rs
    | some row => Except.ok (row :: rs)

/-- Models `r = pd.DataFrame(df); r.columns = [three names]` (lines 149-150):
`pd.DataFrame` of an empty row list has zero columns, and assigning three
column names to it raises a pandas `ValueError` (length mismatch); on a
non-empty row list the three positional columns are simply renamed. -/
def setColumns (rows : List SummaryRow) : Except PyError (List SummaryRow) :=
  if rows.length = 0 then Except.error PyError.valueError else Except.ok rows

/-- Runs `clean_data(top_book, levels)` on a batch of parsed snapshots (the Python
defaults are `top_book=False`, `levels=5`): extract, aggregate, name the
columns. -/
def cleanData (snaps : List RawSnapshot) (topBook : Bool) (levels : ℤ) :
    Except PyError (List SummaryRow) := do
  let store ← extractStore snaps
  let rows ← buildRows topBook levels store
  setColumns rows

/-- The liquidity test of `clean_data` (line 128): a store entry passes iff
neither side has length 0. -/
def BookEntry.liquid (b : BookEntry) : Bool :=
  decide (¬(b.bids.len = 0 ∨ b.asks.len = 0))

/-- One catalog row of `get_instruments`. -/
structure Instrument where
  instrument_name : String
  instrument_url : String
  deriving DecidableEq

/-- The single-instrument lookup of `extract_data(manual=True)` (lines 72-74):
`list(url[url.instrument_name == instrument_name].instrument_url)[0]` — filter
the catalog by name and take element 0, which raises `IndexError` on zero
matches. -/
def lookupUrl (catalog : List Instrument) (name : String) : Except PyError String :=
  match (catalog.filter fun i => i.instrument_name = name).head? with
  | some i => Except.ok i.instrument_url
  | none => Except.error PyError.indexError

/-- An illiquid store entry as `extract_data` produces it for a snapshot with
empty bids: the Python `[]` on the bids side, the raw asks beside it. -/
def bookIll : BookEntry :=
  { name := "I", bids := Side.empty, asks := Side.raw [{ price := 2/5, qty := 3 }] }

/-- A liquid store entry with one normalized level per side. -/
def bookLiq : BookEntry :=
  { name := "L",
    bids := Side.norm (normalizeSide 20000 [{ price := 3/10, qty := 2 }]),
    asks := Side.norm (normalizeSide 20000 [{ price := 7/20, qty := 1 }]) }

/-- The worked example snapshot of the spec: raw bids `[(0.30,2),(0.25,4)]`,
asks `[(0.35,1),(0.40,3)]`, underlying price 20000. -/
def exSnap : RawSnapshot :=
  { instrument_name := "EX", underlying_price := some 20000,
    bids := [{ price := 3/10, qty := 2 }, { price := 1/4, qty := 4 }],
    asks := [{ price := 7/20, qty := 1 }, { price := 2/5, qty := 3 }] }

/-! ## Structural lemmas about the normalizer -/

theorem normalizeFrom_length (u acc : ℚ) (ls : List RawLevel) :
    (normalizeFrom u acc ls).length = ls.length := by
  induction ls generalizing acc with
  | nil => rfl
  | cons l rest ih => simp [normalizeFrom, ih]

theorem normalizeFrom_map_coin (u acc : ℚ) (ls : List RawLevel) :
    (normalizeFrom u acc ls).map NormLevel.coin_price = ls.map RawLevel.price := by
  induction ls generalizing acc with
  | nil => rfl
  | cons l rest ih => simp [normalizeFrom, ih]

theorem normalizeFrom_map_qty (u acc : ℚ) (ls : List RawLevel) :
    (normalizeFrom u acc ls).map NormLevel.quantity = ls.map RawLevel.qty := by
  induction ls generalizing acc with
  | nil => rfl
  | cons l rest ih => simp [normalizeFrom, ih]

theorem normalizeFrom_map_usd (u acc : ℚ) (ls : List RawLevel) :
    (normalizeFrom u acc ls).map NormLevel.usd_price
      = ls.map fun l => l.price * u := by
  induction ls generalizing acc with
  | nil => rfl
  | cons l rest ih => simp [normalizeFrom, ih]

theorem normalizeFrom_map_total (u acc : ℚ) (ls : List RawLevel) :
    (normalizeFrom u acc ls).map NormLevel.total_usd
      = ls.map fun l => l.price * u * l.qty := by
  induction ls generalizing acc with
  | nil => rfl
  | cons l rest ih => simp [normalizeFrom, ih]

theorem sumTotal_take_succ (L : List NormLevel) (i : ℕ) (hi : i < L.length) :
    sumTotal (L.take (i+1)) = sumTotal (L.take i) + (L.get ⟨i, hi⟩).total_usd := by
  have hi2 : i < (L.map NormLevel.total_usd).length := by simpa using hi
  simp only [sumTotal, List.map_take]
  rw [List.sum_take_succ _ i hi2]
  simp [List.get_eq_getElem]

theorem normalizeFrom_get_cum (u acc : ℚ) (ls : List RawLevel) (i : ℕ)
    (hi : i < (normalizeFrom u acc ls).length) :
    ((normalizeFrom u acc ls).get ⟨i, hi⟩).cumulative_usd
      = acc + sumTotal ((normalizeFrom u acc ls).take (i+1)) := by
  induction ls generalizing acc i with
  | nil => simp [normalizeFrom] at hi
  | cons l rest ih =>
    cases i with
    | zero => simp [normalizeFrom, sumTotal]
    | succ j =>
      have hj : j < (normalizeFrom u (acc + l.price * u * l.qty) rest).length := by
        simpa [normalizeFrom] using Nat.lt_of_succ_lt_succ hi
      have hrec := ih (acc + l.price * u * l.qty) j hj
      simp only [normalizeFrom, List.get_cons_succ, List.take_succ_cons] at hrec ⊢
      rw [hrec]
      simp [sumTotal]
      ring

theorem normalizeFrom_total_nonneg (u acc : ℚ) (ls : List RawLevel) (hu : 0 ≤ u)
    (hnn : ∀ l ∈ ls, 0 ≤ l.price ∧ 0 ≤ l.qty) :
    ∀ e ∈ normalizeFrom u acc ls, 0 ≤ e.total_usd := by
  induction ls generalizing acc with
  | nil => intro e he; simp [normalizeFrom] at he
  | cons l rest ih =>
    intro e he
    simp only [normalizeFrom, List.mem_cons] at he
    rcases he with rfl | he
    · have hl := hnn l (List.mem_cons_self l rest)
      exact mul_nonneg (mul_nonneg hl.1 hu) hl.2
    · exact ih (acc + l.price * u * l.qty)
        (fun x hx => hnn x (List.mem_cons_of_mem l hx)) e he

theorem normalizeSide_cum_step (u : ℚ) (ls : List RawLevel) (i : ℕ)
    (hi : i + 1 < (normalizeSide u ls).length) :
    ((normalizeSide u ls).get ⟨i+1, hi⟩).cumulative_usd
      = ((normalizeSide u ls).get ⟨i, Nat.lt_of_succ_lt hi⟩).cumulative_usd
        + ((normalizeSide u ls).get ⟨i+1, hi⟩).total_usd := by
  have h1 := normalizeFrom_get_cum u 0 ls (i+1) hi
  have h2 := normalizeFrom_get_cum u 0 ls i (Nat.lt_of_succ_lt hi)
  have h3 := sumTotal_take_succ (normalizeFrom u 0 ls) (i+1) hi
  simp only [normalizeSide] at *
  rw [h1, h2, h3]
  ring



/-- Claim C1: for every raw level `(p, q)` on a side the normalizer processes,
with underlying price `u`, the normalized level has `usd_price = p * u` and
`notional_usd = p * u * q`, and the output side is the input sequence mapped
level-by-level in input order — same length, no re-sorting, no filtering of
zero-price or zero-quantity levels. -/
theorem C1_normalizer_level_map (u : ℚ) (ls : List RawLevel) :
    (normalizeSide u ls).length = ls.length ∧
    (normalizeSide u ls).map NormLevel.coin_price = ls.map RawLevel.price ∧
    (normalizeSide u ls).map NormLevel.quantity = ls.map RawLevel.qty ∧
    (normalizeSide u ls).map NormLevel.usd_price = (ls.map fun l => l.price * u) ∧
    (normalizeSide u ls).map NormLevel.total_usd
      = ls.map fun l => l.price * u * l.qty :=
  ⟨normalizeFrom_length u 0 ls, normalizeFrom_map_coin u 0 ls,
   normalizeFrom_map_qty u 0 ls, normalizeFrom_map_usd u 0 ls,
   normalizeFrom_map_total u 0 ls⟩

/-- Claim C2: for every non-empty normalized side, `cumulative_usd` at each
index is the prefix sum of `total_usd` from index 0 up to that index; given
non-negative prices (underlying included) and quantities, the cumulative
sequence is non-decreasing step by step, and strictly increasing at every
level whose `total_usd` is positive. -/
theorem C2_cumulative_prefix (u : ℚ) (ls : List RawLevel) (hu : 0 ≤ u)
    (hnn : ∀ l ∈ ls, 0 ≤ l.price ∧ 0 ≤ l.qty) :
    (∀ i (hi : i < (normalizeSide u ls).length),
      ((normalizeSide u ls).get ⟨i, hi⟩).cumulative_usd
        = sumTotal ((normalizeSide u ls).take (i+1))) ∧
    (∀ i (hi : i + 1 < (normalizeSide u ls).length),
      ((normalizeSide u ls).get ⟨i, Nat.lt_of_succ_lt hi⟩).cumulative_usd
        ≤ ((normalizeSide u ls).get ⟨i+1, hi⟩).cumulative_usd
      ∧ (0 < ((normalizeSide u ls).get ⟨i+1, hi⟩).total_usd →
          ((normalizeSide u ls).get ⟨i, Nat.lt_of_succ_lt hi⟩).cumulative_usd
            < ((normalizeSide u ls).get ⟨i+1, hi⟩).cumulative_usd)) := by
  constructor
  · intro i hi
    have h := normalizeFrom_get_cum u 0 ls i hi
    simpa [normalizeSide] using h
  · intro i hi
    have hstep := normalizeSide_cum_step u ls i hi
    have hmem : (normalizeSide u ls).get ⟨i+1, hi⟩ ∈ normalizeFrom u 0 ls := by
      exact List.get_mem (normalizeSide u ls) (i+1) hi
    have htnn := normalizeFrom_total_nonneg u 0 ls hu hnn _ hmem
    refine ⟨by rw [hstep]; linarith, fun hpos => by rw [hstep]; linarith⟩

/-- Concrete witness for C2 on the worked example bids of the spec at underlying
price 20000. -/
theorem C2_cumulative_prefix_witness :
    ((0:ℚ) ≤ 20000 ∧ ∀ l ∈ exSnap.bids, 0 ≤ l.price ∧ 0 ≤ l.qty) ∧
    ((∀ i (hi : i < (normalizeSide 20000 exSnap.bids).length),
      ((normalizeSide 20000 exSnap.bids).get ⟨i, hi⟩).cumulative_usd
        = sumTotal ((normalizeSide 20000 exSnap.bids).take (i+1))) ∧
    (∀ i (hi : i + 1 < (normalizeSide 20000 exSnap.bids).length),
      ((normalizeSide 20000 exSnap.bids).get ⟨i, Nat.lt_of_succ_lt hi⟩).cumulative_usd
        ≤ ((normalizeSide 20000 exSnap.bids).get ⟨i+1, hi⟩).cumulative_usd
      ∧ (0 < ((normalizeSide 20000 exSnap.bids).get ⟨i+1, hi⟩).total_usd →
          ((normalizeSide 20000 exSnap.bids).get
              ⟨i, Nat.lt_of_succ_lt hi⟩).cumulative_usd
            < ((normalizeSide 20000 exSnap.bids).get ⟨i+1, hi⟩).cumulative_usd))) :=
  ⟨⟨by norm_num, by intro l hl; fin_cases hl <;> norm_num [exSnap]⟩,
   C2_cumulative_prefix 20000 exSnap.bids (by norm_num)
     (by intro l hl; fin_cases hl <;> norm_num [exSnap])⟩

@[simp]
theorem exceptBind_ok {α β : Type} (a : α) (f : α → Except PyError β) :
    (Except.ok a >>= f) = f a := rfl

@[simp]
theorem exceptBind_error {α β : Type} (e : PyError) (f : α → Except PyError β) :
    ((Except.error e : Except PyError α) >>= f) = Except.error e := rfl

/-- Counterexample to claim C3 as stated: on a snapshot with empty bids and a
single ask level, `extract_data` stores the asks side as the raw dataframe —
it never gains the normalized columns, although the claim requires a non-empty
side to be fully normalized when the opposite side is empty. -/
theorem C3_counterexample :
    extractOne { instrument_name := "X", underlying_price := some 20000,
                 bids := [], asks := [{ price := 2/5, qty := 3 }] }
      = Except.ok { name := "X", bids := Side.empty,
                    asks := Side.raw [{ price := 2/5, qty := 3 }] } ∧
    (Side.raw [{ price := 2/5, qty := 3 }]).isNorm = false :=
  ⟨rfl, rfl⟩

/-- Claim C3 amended: `extract_data` does not handle the sides independently.
An empty bids side yields the Python empty list while the asks side is stored
raw and un-normalized; symmetrically, an empty asks side with non-empty bids
leaves the bids raw; both sides receive the normalized columns only when both
are non-empty. -/
theorem C3_amended (s : RawSnapshot) (u : ℚ)
    (hu : s.underlying_price = some u) :
    (s.bids = [] →
      extractOne s = Except.ok { name := s.instrument_name, bids := Side.empty,
                                 asks := Side.raw s.asks }) ∧
    (s.bids ≠ [] → s.asks = [] →
      extractOne s = Except.ok { name := s.instrument_name,
                                 bids := Side.raw s.bids,
                                 asks := Side.empty }) ∧
    (s.bids ≠ [] → s.asks ≠ [] →
      extractOne s = Except.ok { name := s.instrument_name,
                                 bids := Side.norm (normalizeSide u s.bids),
                                 asks := Side.norm (normalizeSide u s.asks) }) := by
  refine ⟨fun hb => ?_, fun hb ha => ?_, fun hb ha => ?_⟩
  · simp [extractOne, hb]
  · have hb2 : s.bids.length ≠ 0 := by simpa [List.length_eq_zero] using hb
    simp [extractOne, hb2, ha]
  · have hb2 : s.bids.length ≠ 0 := by simpa [List.length_eq_zero] using hb
    have ha2 : s.asks.length ≠ 0 := by simpa [List.length_eq_zero] using ha
    simp [extractOne, hb2, ha2, hu]

/-- Concrete witness for the amended C3 on the worked example snapshot. -/
theorem C3_amended_witness :
    exSnap.underlying_price = some 20000 ∧
    ((exSnap.bids = [] →
      extractOne exSnap = Except.ok { name := exSnap.instrument_name,
                                      bids := Side.empty,
                                      asks := Side.raw exSnap.asks }) ∧
    (exSnap.bids ≠ [] → exSnap.asks = [] →
      extractOne exSnap = Except.ok { name := exSnap.instrument_name,
                                      bids := Side.raw exSnap.bids,
                                      asks := Side.empty }) ∧
    (exSnap.bids ≠ [] → exSnap.asks ≠ [] →
      extractOne exSnap
        = Except.ok { name := exSnap.instrument_name,
                      bids := Side.norm (normalizeSide 20000 exSnap.bids),
                      asks := Side.norm (normalizeSide 20000 exSnap.asks) })) :=
  ⟨rfl, C3_amended exSnap 20000 rfl⟩

@[simp]
theorem exceptBind_pure {α : Type} (x : Except PyError α) :
    (x >>= Except.ok) = x := by
  cases x <;> rfl

theorem rowOf_illiquid (tb : Bool) (lv : ℤ) (b : BookEntry)
    (hb : b.bids.len = 0 ∨ b.asks.len = 0) :
    rowOf tb lv b = Except.ok none := by
  unfold rowOf
  rw [if_pos hb]

theorem sideSum_error (tb : Bool) (lv : ℤ) (sd : Side) (e : PyError)
    (h : sideSum tb lv sd = Except.error e) : e = PyError.attributeError := by
  cases sd <;> simp_all [sideSum]

theorem rowOf_liquid_shape (tb : Bool) (lv : ℤ) (b : BookEntry)
    (hb : ¬(b.bids.len = 0 ∨ b.asks.len = 0)) :
    (∃ row, rowOf tb lv b = Except.ok (some row) ∧ row.product_name = b.name) ∨
    rowOf tb lv b = Except.error PyError.attributeError := by
  unfold rowOf
  rw [if_neg hb]
  cases hbs : sideSum tb lv b.bids with
  | error e =>
    right
    have he := sideSum_error tb lv b.bids e hbs
    subst he
    simp [hbs]
  | ok bSum =>
    cases has2 : sideSum tb lv b.asks with
    | error e =>
      right
      have he := sideSum_error tb lv b.asks e has2
      subst he
      simp [hbs, has2]
    | ok aSum =>
      left
      refine ⟨{ product_name := b.name, bids_thousands := bSum / 1000,
                asks_thousands := aSum / 1000 }, ?_, rfl⟩
      simp [hbs, has2]

/-- Claim C4: `clean_data` emits no row for a store entry with an empty side —
deleting the illiquid entries from the store leaves the produced rows
unchanged — and the emitted rows carry the names of the liquid entries in their
relative input order. -/
theorem C4_illiquid_books_skipped (tb : Bool) (lv : ℤ) (store : List BookEntry)
    (rows : List SummaryRow) (h : buildRows tb lv store = Except.ok rows) :
    buildRows tb lv (store.filter BookEntry.liquid) = Except.ok rows ∧
    rows.map SummaryRow.product_name
      = (store.filter BookEntry.liquid).map BookEntry.name := by
  induction store generalizing rows with
  | nil =>
    simp only [buildRows, Except.ok.injEq] at h
    subst h
    simp [buildRows]
  | cons b rest ih =>
    by_cases hb : b.bids.len = 0 ∨ b.asks.len = 0
    · have hfil : (b :: rest).filter BookEntry.liquid
          = rest.filter BookEntry.liquid := by
        simp [List.filter_cons, BookEntry.liquid, hb]
      have hbr : buildRows tb lv (b :: rest) = buildRows tb lv rest := by
        simp [buildRows, rowOf_illiquid tb lv b hb]
      rw [hbr] at h
      rw [hfil]
      exact ih rows h
    · have hfil : (b :: rest).filter BookEntry.liquid
          = b :: rest.filter BookEntry.liquid := by
        simp [List.filter_cons, BookEntry.liquid, hb]
      rcases rowOf_liquid_shape tb lv b hb with ⟨row, hrow, hname⟩ | herr
      · simp only [buildRows, hrow, exceptBind_ok] at h
        cases hrs : buildRows tb lv rest with
        | error e => rw [hrs] at h; simp at h
        | ok rs =>
          rw [hrs] at h
          simp only [exceptBind_ok, Except.ok.injEq] at h
          subst h
          obtain ⟨iha, ihb⟩ := ih rs hrs
          rw [hfil]
          constructor
          · simp only [buildRows, hrow, exceptBind_ok, iha, Except.ok.injEq]
          · simp [hname, ihb]
      · simp only [buildRows, herr, exceptBind_error] at h
        exact absurd h (by simp)

/-- Concrete witness for C4: a store of one illiquid and one liquid entry. -/
theorem C4_illiquid_books_skipped_witness :
    buildRows false 5 [bookIll, bookLiq]
      = Except.ok [{ product_name := "L", bids_thousands := 12,
                     asks_thousands := 7 }] ∧
    (buildRows false 5 ([bookIll, bookLiq].filter BookEntry.liquid)
      = Except.ok [{ product_name := "L", bids_thousands := 12,
                     asks_thousands := 7 }] ∧
    [SummaryRow.mk "L" 12 7].map SummaryRow.product_name
      = ([bookIll, bookLiq].filter BookEntry.liquid).map BookEntry.name) :=
  ⟨by norm_num [buildRows, rowOf, sideSum, sumTotal, normalizeSide, normalizeFrom,
      Side.len, bookIll, bookLiq],
   C4_illiquid_books_skipped false 5 [bookIll, bookLiq] [SummaryRow.mk "L" 12 7]
     (by norm_num [buildRows, rowOf, sideSum, sumTotal, normalizeSide, normalizeFrom,
        Side.len, bookIll, bookLiq])⟩

theorem pyHead_pos (N : ℤ) (hN : 0 ≤ N) (ls : List NormLevel) :
    pyHead N ls = ls.take (min N.toNat ls.length) := by
  unfold pyHead
  rw [if_pos hN]
  exact List.take_eq_take.mpr (by omega)

theorem pyHead_all (N : ℤ) (hN : 0 ≤ N) (ls : List NormLevel)
    (h : (ls.length : ℤ) ≤ N) : pyHead N ls = ls := by
  unfold pyHead
  rw [if_pos hN]
  exact List.take_of_length_le (by omega)

/-- Claim C5: for every liquid book and positive integer N, `clean_data` with
top-of-book depth N sums `total_usd` over the first `min(N, len(side))` levels
of each side; a side with fewer than N levels contributes the same per-side
sum as full-book aggregation, and when both sides have fewer than N levels the
whole row equals the full-book row. -/
theorem C5_top_levels_min (N : ℤ) (hN : 0 < N) (b : BookEntry)
    (bl al : List NormLevel) (hb : b.bids = Side.norm bl)
    (ha : b.asks = Side.norm al) (hbne : bl ≠ []) (hane : al ≠ []) :
    rowOf true N b = Except.ok (some
      { product_name := b.name,
        bids_thousands := sumTotal (bl.take (min N.toNat bl.length)) / 1000,
        asks_thousands := sumTotal (al.take (min N.toNat al.length)) / 1000 }) ∧
    ((bl.length : ℤ) < N → sumTotal (pyHead N bl) = sumTotal bl) ∧
    ((al.length : ℤ) < N → sumTotal (pyHead N al) = sumTotal al) ∧
    ((bl.length : ℤ) < N → (al.length : ℤ) < N →
      rowOf true N b = rowOf false N b) := by
  have hblen : b.bids.len = bl.length := by rw [hb]; rfl
  have halen : b.asks.len = al.length := by rw [ha]; rfl
  have hcond : ¬(b.bids.len = 0 ∨ b.asks.len = 0) := by
    rw [hblen, halen]
    push_neg
    constructor
    · simpa [List.length_eq_zero] using hbne
    · simpa [List.length_eq_zero] using hane
  refine ⟨?_, ?_, ?_, ?_⟩
  · unfold rowOf
    rw [if_neg hcond, hb, ha]
    simp [sideSum, pyHead_pos N (le_of_lt hN)]
  · intro h
    rw [pyHead_all N (le_of_lt hN) bl (le_of_lt h)]
  · intro h
    rw [pyHead_all N (le_of_lt hN) al (le_of_lt h)]
  · intro h1 h2
    unfold rowOf
    rw [if_neg hcond, if_neg hcond, hb, ha]
    simp [sideSum, pyHead_all N (le_of_lt hN) bl (le_of_lt h1),
          pyHead_all N (le_of_lt hN) al (le_of_lt h2)]

/-- Concrete witness for C5: `bookLiq` (one level per side) at depth N = 3. -/
theorem C5_top_levels_min_witness :
    ((0:ℤ) < 3 ∧ bookLiq.bids = Side.norm (normalizeSide 20000 [{ price := 3/10, qty := 2 }])
      ∧ bookLiq.asks = Side.norm (normalizeSide 20000 [{ price := 7/20, qty := 1 }])
      ∧ normalizeSide 20000 [{ price := 3/10, qty := 2 }] ≠ []
      ∧ normalizeSide 20000 [{ price := 7/20, qty := 1 }] ≠ []) ∧
    (rowOf true 3 bookLiq = Except.ok (some
      { product_name := bookLiq.name,
        bids_thousands := sumTotal ((normalizeSide 20000 [{ price := 3/10, qty := 2 }]).take
          (min (3:ℤ).toNat (normalizeSide 20000 [{ price := 3/10, qty := 2 }]).length)) / 1000,
        asks_thousands := sumTotal ((normalizeSide 20000 [{ price := 7/20, qty := 1 }]).take
          (min (3:ℤ).toNat (normalizeSide 20000 [{ price := 7/20, qty := 1 }]).length)) / 1000 }) ∧
    (((normalizeSide 20000 [{ price := 3/10, qty := 2 }]).length : ℤ) < 3 →
      sumTotal (pyHead 3 (normalizeSide 20000 [{ price := 3/10, qty := 2 }]))
        = sumTotal (normalizeSide 20000 [{ price := 3/10, qty := 2 }])) ∧
    (((normalizeSide 20000 [{ price := 7/20, qty := 1 }]).length : ℤ) < 3 →
      sumTotal (pyHead 3 (normalizeSide 20000 [{ price := 7/20, qty := 1 }]))
        = sumTotal (normalizeSide 20000 [{ price := 7/20, qty := 1 }])) ∧
    (((normalizeSide 20000 [{ price := 3/10, qty := 2 }]).length : ℤ) < 3 →
      ((normalizeSide 20000 [{ price := 7/20, qty := 1 }]).length : ℤ) < 3 →
      rowOf true 3 bookLiq = rowOf false 3 bookLiq)) :=
  ⟨⟨by norm_num, rfl, rfl, by simp [normalizeSide, normalizeFrom],
    by simp [normalizeSide, normalizeFrom]⟩,
   C5_top_levels_min 3 (by norm_num) bookLiq
     (normalizeSide 20000 [{ price := 3/10, qty := 2 }])
     (normalizeSide 20000 [{ price := 7/20, qty := 1 }]) rfl rfl
     (by simp [normalizeSide, normalizeFrom]) (by simp [normalizeSide, normalizeFrom])⟩

/-- Claim C6: the worked example of the spec — bids `[(0.30,2),(0.25,4)]`, asks
`[(0.35,1),(0.40,3)]`, underlying 20000 — normalizes to bid notionals
`[12000, 20000]` with cumulative `[12000, 32000]` and ask notionals
`[7000, 24000]` with cumulative `[7000, 31000]`; depth-1 aggregation yields
the row `(12, 7)` in thousands, full-book aggregation the row `(32, 31)`. -/
theorem C6_worked_example :
    (normalizeSide 20000 exSnap.bids).map NormLevel.total_usd = [12000, 20000] ∧
    (normalizeSide 20000 exSnap.bids).map NormLevel.cumulative_usd
      = [12000, 32000] ∧
    (normalizeSide 20000 exSnap.asks).map NormLevel.total_usd = [7000, 24000] ∧
    (normalizeSide 20000 exSnap.asks).map NormLevel.cumulative_usd
      = [7000, 31000] ∧
    cleanData [exSnap] true 1
      = Except.ok [{ product_name := "EX", bids_thousands := 12,
                     asks_thousands := 7 }] ∧
    cleanData [exSnap] false 5
      = Except.ok [{ product_name := "EX", bids_thousands := 32,
                     asks_thousands := 31 }] := by
  refine ⟨?_, ?_, ?_, ?_, ?_, ?_⟩ <;>
    norm_num [cleanData, extractStore, extractOne, exSnap, normalizeSide,
      normalizeFrom, buildRows, rowOf, sideSum, setColumns, pyHead, sumTotal,
      Side.len]

/-- Counterexample to claim C7 as stated: `clean_data` with depth 0 and with
depth -1 on the worked example batch returns a summary table and raises
nothing at all — there is no `InvalidParameterError` in the source. -/
theorem C7_counterexample :
    cleanData [exSnap] true 0
      = Except.ok [{ product_name := "EX", bids_thousands := 0,
                     asks_thousands := 0 }] ∧
    cleanData [exSnap] true (-1)
      = Except.ok [{ product_name := "EX", bids_thousands := 12,
                     asks_thousands := 7 }] := by
  constructor <;>
    norm_num [cleanData, extractStore, extractOne, exSnap, normalizeSide,
      normalizeFrom, buildRows, rowOf, sideSum, setColumns, pyHead, sumTotal,
      Side.len]

theorem extractOne_no_invalid (s : RawSnapshot) :
    extractOne s ≠ Except.error PyError.invalidParameter := by
  unfold extractOne
  split
  · simp
  · split
    · simp
    · cases s.underlying_price <;> simp

theorem rowOf_no_invalid (tb : Bool) (lv : ℤ) (b : BookEntry) :
    rowOf tb lv b ≠ Except.error PyError.invalidParameter := by
  intro hc
  rcases h : rowOf tb lv b with e | r
  · rw [h] at hc
    by_cases hb : b.bids.len = 0 ∨ b.asks.len = 0
    · rw [rowOf_illiquid tb lv b hb] at h
      exact absurd h (by simp)
    · rcases rowOf_liquid_shape tb lv b hb with ⟨row, hrow, _⟩ | herr
      · rw [hrow] at h
        exact absurd h (by simp)
      · rw [herr] at h
        injection h with he
        rw [← he] at hc
        exact absurd hc (by simp)
  · rw [h] at hc
    exact absurd hc (by simp)

theorem extractStore_no_invalid (snaps : List RawSnapshot) :
    extractStore snaps ≠ Except.error PyError.invalidParameter := by
  induction snaps with
  | nil => simp [extractStore]
  | cons s rest ih =>
    simp only [extractStore]
    cases h : extractOne s with
    | error e =>
      simp only [exceptBind_error, ne_eq, Except.error.injEq]
      intro he
      subst he
      exact extractOne_no_invalid s h
    | ok b =>
      simp only [exceptBind_ok]
      cases h2 : extractStore rest with
      | error e =>
        simp only [exceptBind_error, ne_eq, Except.error.injEq]
        intro he
        subst he
        exact ih h2
      | ok bs => simp

theorem buildRows_no_invalid (tb : Bool) (lv : ℤ) (store : List BookEntry) :
    buildRows tb lv store ≠ Except.error PyError.invalidParameter := by
  induction store with
  | nil => simp [buildRows]
  | cons b rest ih =>
    simp only [buildRows]
    cases h : rowOf tb lv b with
    | error e =>
      simp only [exceptBind_error, ne_eq, Except.error.injEq]
      intro he
      subst he
      exact rowOf_no_invalid tb lv b h
    | ok r =>
      simp only [exceptBind_ok]
      cases h2 : buildRows tb lv rest with
      | error e =>
        simp only [exceptBind_error, ne_eq, Except.error.injEq]
        intro he
        subst he
        exact ih h2
      | ok rs => cases r <;> simp

theorem cleanData_no_invalid (snaps : List RawSnapshot) (tb : Bool) (lv : ℤ) :
    cleanData snaps tb lv ≠ Except.error PyError.invalidParameter := by
  unfold cleanData
  cases h : extractStore snaps with
  | error e =>
    simp only [exceptBind_error, ne_eq, Except.error.injEq]
    intro he
    subst he
    exact extractStore_no_invalid snaps h
  | ok store =>
    simp only [exceptBind_ok]
    cases h2 : buildRows tb lv store with
    | error e =>
      simp only [exceptBind_error, ne_eq, Except.error.injEq]
      intro he
      subst he
      exact buildRows_no_invalid tb lv store h2
    | ok rows =>
      simp only [exceptBind_ok]
      unfold setColumns
      split <;> simp

/-- Claim C7 amended: `clean_data` performs no validation of `levels` and the
source has no `InvalidParameterError` to raise: depth 0 yields a row of zero
sums for a liquid normalized book, depth -1 sums all levels but the last of
each side, and no input whatsoever makes `clean_data` return
`InvalidParameterError`. -/
theorem C7_amended (b : BookEntry) (bl al : List NormLevel)
    (hb : b.bids = Side.norm bl) (ha : b.asks = Side.norm al)
    (hbne : bl ≠ []) (hane : al ≠ []) :
    rowOf true 0 b = Except.ok (some
      { product_name := b.name, bids_thousands := 0, asks_thousands := 0 }) ∧
    rowOf true (-1) b = Except.ok (some
      { product_name := b.name,
        bids_thousands := sumTotal (bl.take (bl.length - 1)) / 1000,
        asks_thousands := sumTotal (al.take (al.length - 1)) / 1000 }) ∧
    ∀ (snaps : List RawSnapshot) (tb : Bool) (lv : ℤ),
      cleanData snaps tb lv ≠ Except.error PyError.invalidParameter := by
  have hblen : b.bids.len = bl.length := by rw [hb]; rfl
  have halen : b.asks.len = al.length := by rw [ha]; rfl
  have hcond : ¬(b.bids.len = 0 ∨ b.asks.len = 0) := by
    rw [hblen, halen]
    push_neg
    constructor
    · simpa [List.length_eq_zero] using hbne
    · simpa [List.length_eq_zero] using hane
  refine ⟨?_, ?_, fun snaps tb lv => cleanData_no_invalid snaps tb lv⟩
  · unfold rowOf
    rw [if_neg hcond, hb, ha]
    simp [sideSum, pyHead, sumTotal]
  · unfold rowOf
    rw [if_neg hcond, hb, ha]
    norm_num [sideSum, pyHead]

/-- Concrete witness for the amended C7 on `bookLiq`. -/
theorem C7_amended_witness :
    (bookLiq.bids = Side.norm (normalizeSide 20000 [{ price := 3/10, qty := 2 }])
      ∧ bookLiq.asks = Side.norm (normalizeSide 20000 [{ price := 7/20, qty := 1 }])
      ∧ normalizeSide 20000 [{ price := 3/10, qty := 2 }] ≠ []
      ∧ normalizeSide 20000 [{ price := 7/20, qty := 1 }] ≠ []) ∧
    (rowOf true 0 bookLiq = Except.ok (some
      { product_name := bookLiq.name, bids_thousands := 0,
        asks_thousands := 0 }) ∧
    rowOf true (-1) bookLiq = Except.ok (some
      { product_name := bookLiq.name,
        bids_thousands := sumTotal ((normalizeSide 20000
          [{ price := 3/10, qty := 2 }]).take
            ((normalizeSide 20000 [{ price := 3/10, qty := 2 }]).length - 1)) / 1000,
        asks_thousands := sumTotal ((normalizeSide 20000
          [{ price := 7/20, qty := 1 }]).take
            ((normalizeSide 20000 [{ price := 7/20, qty := 1 }]).length - 1)) / 1000 }) ∧
    ∀ (snaps : List RawSnapshot) (tb : Bool) (lv : ℤ),
      cleanData snaps tb lv ≠ Except.error PyError.invalidParameter) :=
  ⟨⟨rfl, rfl, by simp [normalizeSide, normalizeFrom],
    by simp [normalizeSide, normalizeFrom]⟩,
   C7_amended bookLiq
     (normalizeSide 20000 [{ price := 3/10, qty := 2 }])
     (normalizeSide 20000 [{ price := 7/20, qty := 1 }]) rfl rfl
     (by simp [normalizeSide, normalizeFrom]) (by simp [normalizeSide, normalizeFrom])⟩

/-- Counterexample to claim C8 as stated: a snapshot with non-empty bids but
an absent `underlying_price` passes through without any error when asks is
empty (the `elif` fires first and the price is never read), and a snapshot
with a negative underlying price is normalized without complaint — no error is
raised for non-positive prices at all. -/
theorem C8_counterexample :
    extractOne { instrument_name := "X", underlying_price := none,
                 bids := [{ price := 3/10, qty := 2 }], asks := [] }
      = Except.ok { name := "X", bids := Side.raw [{ price := 3/10, qty := 2 }],
                    asks := Side.empty } ∧
    extractOne { instrument_name := "Y", underlying_price := some (-1),
                 bids := [{ price := 3/10, qty := 2 }],
                 asks := [{ price := 2/5, qty := 1 }] }
      = Except.ok { name := "Y",
                    bids := Side.norm (normalizeSide (-1)
                      [{ price := 3/10, qty := 2 }]),
                    asks := Side.norm (normalizeSide (-1)
                      [{ price := 2/5, qty := 1 }]) } := by
  constructor <;> rfl

/-- Claim C8 amended: the missing-`underlying_price` error is a `KeyError`
(there is no `MalformedSnapshotError` in the source) and it is raised only
when BOTH sides are non-empty; a snapshot with non-empty bids but empty asks
never reads `underlying_price`, and a non-positive underlying price is never
rejected. -/
theorem C8_amended (s : RawSnapshot) (hb : s.bids ≠ []) (ha : s.asks ≠ [])
    (hu : s.underlying_price = none) :
    extractOne s = Except.error PyError.keyError := by
  have hb2 : s.bids.length ≠ 0 := by simpa [List.length_eq_zero] using hb
  have ha2 : s.asks.length ≠ 0 := by simpa [List.length_eq_zero] using ha
  simp [extractOne, hb2, ha2, hu]

/-- Concrete witness for the amended C8. -/
theorem C8_amended_witness :
    (([{ price := 3/10, qty := 2 }] : List RawLevel) ≠ []
      ∧ ([{ price := 2/5, qty := 1 }] : List RawLevel) ≠ []
      ∧ (none : Option ℚ) = none) ∧
    extractOne { instrument_name := "Z", underlying_price := none,
                 bids := [{ price := 3/10, qty := 2 }],
                 asks := [{ price := 2/5, qty := 1 }] }
      = Except.error PyError.keyError :=
  ⟨⟨by simp, by simp, rfl⟩,
   C8_amended { instrument_name := "Z", underlying_price := none,
                bids := [{ price := 3/10, qty := 2 }],
                asks := [{ price := 2/5, qty := 1 }] }
     (by simp) (by simp) rfl⟩

/-- Counterexample to claim C9 as stated: looking up an instrument name with
zero catalog matches raises the unnamed indexing failure `IndexError` (from
`[0]` on the empty filtered list), not `InvalidParameterError`. -/
theorem C9_counterexample :
    lookupUrl [{ instrument_name := "BTC-PERPETUAL",
                 instrument_url := "https://example.test/btc" }] "ETH-UNKNOWN"
      = Except.error PyError.indexError ∧
    PyError.indexError ≠ PyError.invalidParameter :=
  ⟨rfl, by simp⟩

/-- Claim C9 amended: for every instrument name with zero catalog matches, the
single-book lookup of `extract_data(manual=True)` raises `IndexError` — the
implicit exception of indexing an empty list — rather than an explicit
`InvalidParameterError`. -/
theorem C9_amended (catalog : List Instrument) (name : String)
    (h : ∀ i ∈ catalog, i.instrument_name ≠ name) :
    lookupUrl catalog name = Except.error PyError.indexError := by
  have hfil : catalog.filter (fun i => i.instrument_name = name) = [] := by
    rw [List.filter_eq_nil_iff]
    intro i hi
    simpa using h i hi
  unfold lookupUrl
  rw [hfil]
  rfl

/-- Concrete witness for the amended C9. -/
theorem C9_amended_witness :
    (∀ i ∈ [Instrument.mk "BTC-PERPETUAL" "https://example.test/btc"],
      i.instrument_name ≠ "ETH-UNKNOWN") ∧
    lookupUrl [Instrument.mk "BTC-PERPETUAL" "https://example.test/btc"]
        "ETH-UNKNOWN"
      = Except.error PyError.indexError :=
  ⟨by simp, C9_amended [Instrument.mk "BTC-PERPETUAL" "https://example.test/btc"]
    "ETH-UNKNOWN" (by simp)⟩

theorem buildRows_all_illiquid (tb : Bool) (lv : ℤ) (store : List BookEntry)
    (h : ∀ b ∈ store, b.bids.len = 0 ∨ b.asks.len = 0) :
    buildRows tb lv store = Except.ok [] := by
  induction store with
  | nil => rfl
  | cons b rest ih =>
    have hb := h b (List.mem_cons_self b rest)
    have hrest := ih fun x hx => h x (List.mem_cons_of_mem b hx)
    simp [buildRows, rowOf_illiquid tb lv b hb, hrest]

theorem extractOne_empty_side (s : RawSnapshot)
    (h : s.bids = [] ∨ s.asks = []) :
    ∃ b, extractOne s = Except.ok b ∧ (b.bids.len = 0 ∨ b.asks.len = 0) := by
  by_cases hbe : s.bids.length = 0
  · refine ⟨{ name := s.instrument_name, bids := Side.empty,
              asks := Side.raw s.asks }, by simp [extractOne, hbe], Or.inl rfl⟩
  · have ha : s.asks = [] := by
      rcases h with h | h
      · exact absurd (by simp [h]) hbe
      · exact h
    refine ⟨{ name := s.instrument_name, bids := Side.raw s.bids,
              asks := Side.empty }, ?_, Or.inr rfl⟩
    simp [extractOne, hbe, ha]

theorem extractStore_all_illiquid (snaps : List RawSnapshot)
    (h : ∀ s ∈ snaps, s.bids = [] ∨ s.asks = []) :
    ∃ store, extractStore snaps = Except.ok store ∧
      ∀ b ∈ store, b.bids.len = 0 ∨ b.asks.len = 0 := by
  induction snaps with
  | nil => exact ⟨[], rfl, by simp⟩
  | cons s rest ih =>
    obtain ⟨b, hb, hbill⟩ := extractOne_empty_side s (h s (List.mem_cons_self s rest))
    obtain ⟨store, hst, hill⟩ := ih fun x hx => h x (List.mem_cons_of_mem s hx)
    refine ⟨b :: store, by simp [extractStore, hb, hst], ?_⟩
    intro x hx
    rcases List.mem_cons.mp hx with rfl | hx
    · exact hbill
    · exact hill x hx

/-- Claim C10: when every snapshot in the batch has an empty bid side or an
empty ask side — the empty batch included — `clean_data` does not return an
empty summary: the loop appends no row, `pd.DataFrame([])` has zero columns,
and assigning the three column names raises `ValueError`. -/
theorem C10_all_illiquid_valueerror (snaps : List RawSnapshot) (tb : Bool)
    (lv : ℤ) (h : ∀ s ∈ snaps, s.bids = [] ∨ s.asks = []) :
    cleanData snaps tb lv = Except.error PyError.valueError := by
  obtain ⟨store, hst, hill⟩ := extractStore_all_illiquid snaps h
  have hbr := buildRows_all_illiquid tb lv store hill
  simp [cleanData, hst, hbr, setColumns]

/-- Concrete witness for C10: a one-snapshot batch whose only book has empty
bids. -/
theorem C10_all_illiquid_valueerror_witness :
    (∀ s ∈ [RawSnapshot.mk "X" (some 1) [] [{ price := 1, qty := 1 }]],
      s.bids = [] ∨ s.asks = []) ∧
    cleanData [RawSnapshot.mk "X" (some 1) [] [{ price := 1, qty := 1 }]] false 5
      = Except.error PyError.valueError :=
  ⟨by simp,
   C10_all_illiquid_valueerror
     [RawSnapshot.mk "X" (some 1) [] [{ price := 1, qty := 1 }]] false 5
     (by simp)⟩
